import Mathlib

/-!
Shallow embedding of the UpCloud cluster-autoscaler cloud provider
(`cluster-autoscaler/cloudprovider/upcloud`), covering the node-group
controller (`upCloudNodeGroup`), the manager (`Manager.Refresh`,
`nodeGroupNodes`), the cloud-provider node lookup (`NodeGroupForNode`)
and the instance-state mappers (`nodeStateToInstanceStatus`,
`serverStateToInstanceStatus`).

The remote service (`upCloudService`) is modelled as response oracles:
each endpoint is a function from its call index to the response the
remote side returns for that call, and a `Calls` record counts how many
calls have been issued on each endpoint.  The wall-clock deadline of the
polling loop in `waitNodeGroupState` is modelled as fuel: the number of
loop iterations the deadline still admits.  Go `error` values are
modelled by the inductive `UpErr`, whose constructors carry the same
data as the `fmt.Errorf` format strings in the source.
-/

namespace UpCloud

/-- Go errors produced by the upcloud provider.  `remote` stands for an
opaque error value returned by the remote service itself; the remaining
constructors correspond to the `fmt.Errorf` calls in the source, carrying
the formatted arguments. -/
inductive UpErr where
  /-- an error value coming back from the remote service -/
  | remote (msg : String)
  /-- "failed to increase node group size, delta=%d" (used by both
  IncreaseSize for delta <= 0 and DecreaseTargetSize for delta >= 0,
  which reuses the same message) -/
  | invalidDelta (delta : Int)
  /-- "failed to increase node group size, current=%d want=%d max=%d" -/
  | increaseExceedsMax (current want max : Int)
  /-- "failed to decrease node group size, current=%d want=%d min=%d" -/
  | decreaseBelowMin (current want min : Int)
  /-- "failed to scale node group %s, %w" -/
  | scaleFailed (name : String) (inner : UpErr)
  /-- "failed to fetch node group %s, %w" -/
  | fetchNodeGroupFailed (id : String) (inner : UpErr)
  /-- "node group %s state check (%d) timed out" -/
  | stateCheckTimeout (id : String) (attempt : Nat)
  deriving Repr, DecidableEq

/-- upcloud.KubernetesNodeGroupState / KubernetesNodeState are string
types in the Go SDK; states are compared as strings. -/
abbrev KState := String

/-- upcloud.KubernetesNodeGroupStateRunning -/
def KubernetesNodeGroupStateRunning : KState := "running"

/-- upcloud.KubernetesNodeStateRunning -/
def KubernetesNodeStateRunning : KState := "running"

/-- upcloud.KubernetesNodeStateTerminating -/
def KubernetesNodeStateTerminating : KState := "terminating"

/-- upcloud.KubernetesNodeStatePending -/
def KubernetesNodeStatePending : KState := "pending"

/-- upcloud.KubernetesNode: a node inside a node group, as reported by
the remote API (fields used by the provider: UUID, Name, State). -/
structure KubernetesNode where
  uuid : String
  name : String
  state : KState
  deriving Repr, DecidableEq

/-- upcloud.KubernetesNodeGroup (fields used by the provider: Name,
Count, State). -/
structure KubernetesNodeGroup where
  name : String
  count : Int
  state : KState
  deriving Repr, DecidableEq

/-- upcloud.KubernetesNodeGroupDetails: node group plus its nodes. -/
structure KubernetesNodeGroupDetails where
  name : String
  count : Int
  state : KState
  nodes : List KubernetesNode
  deriving Repr, DecidableEq

/-- cloudprovider.InstanceState is an integer enum in the
cluster-autoscaler API (InstanceRunning = 1, InstanceCreating = 2,
InstanceDeleting = 3); the Go zero value 0 is outside the enum. -/
abbrev InstanceState := Nat

/-- cloudprovider.InstanceRunning -/
def InstanceRunning : InstanceState := 1

/-- cloudprovider.InstanceCreating -/
def InstanceCreating : InstanceState := 2

/-- cloudprovider.InstanceDeleting -/
def InstanceDeleting : InstanceState := 3

/-- cloudprovider.InstanceErrorClass; OtherErrorClass = 99. -/
abbrev InstanceErrorClass := Nat

/-- cloudprovider.OtherErrorClass -/
def OtherErrorClass : InstanceErrorClass := 99

/-- cloudprovider.InstanceErrorInfo -/
structure InstanceErrorInfo where
  errorClass : InstanceErrorClass
  errorCode : String
  deriving Repr, DecidableEq

/-- cloudprovider.InstanceStatus: the state together with the optional
error info (`ErrorInfo` is a nil-able pointer in Go). -/
structure InstanceStatus where
  state : InstanceState
  errorInfo : Option InstanceErrorInfo
  deriving Repr, DecidableEq

/-- cloudprovider.Instance: Id plus optional status pointer. -/
structure Instance where
  id : String
  status : Option InstanceStatus
  deriving Repr, DecidableEq

/-- upcloud.Plan (fields used by the provider). -/
structure Plan where
  coreNumber : Int
  memoryAmount : Int
  storageSize : Int
  deriving Repr, DecidableEq

/-- upcloud.KubernetesTaint -/
structure KubernetesTaint where
  effect : String
  key : String
  value : String
  deriving Repr, DecidableEq

/-- upcloud.Label -/
structure Label where
  key : String
  value : String
  deriving Repr, DecidableEq

/-- The upCloudNodeGroup / UpCloudNodeGroup controller struct: cached
identity, size, bounds, plan/taints/labels for template synthesis, and
the cached instance list.  (The sync.Mutex and the service handle are
modelled outside the state: the service is passed explicitly to each
operation.) -/
structure UpCloudNodeGroup where
  clusterID : String
  name : String
  size : Int
  minSize : Int
  maxSize : Int
  plan : Plan
  taints : List KubernetesTaint
  labels : List Label
  nodes : List Instance
  deriving Repr, DecidableEq

/-- The remote service (`upCloudService` interface) as response oracles:
for each endpoint, the response returned to the n-th call of that
endpoint.  Delete returns only an optional error (Go `error`, nil =
success). -/
structure Svc where
  modifyResp : Nat → Except UpErr KubernetesNodeGroup
  getResp : Nat → Except UpErr KubernetesNodeGroupDetails
  deleteResp : Nat → Option UpErr

/-- Counters of remote calls issued so far on each endpoint, together
with the request payloads sent on the mutating endpoints: the counts
sent to ModifyKubernetesNodeGroup and the node names sent to
DeleteKubernetesNodeGroupNode, in call order. -/
structure Calls where
  modifyCalls : Nat
  getCalls : Nat
  deleteCalls : Nat
  modifyCounts : List Int
  deleteNames : List String
  deriving Repr, DecidableEq

namespace UpCloudNodeGroup

/-- upCloudNodeGroup.Id: fmt.Sprintf("%s/%s", clusterID, name). -/
def Id (u : UpCloudNodeGroup) : String :=
  u.clusterID ++ "/" ++ u.name

/-- upCloudNodeGroup.MinSize -/
def MinSize (u : UpCloudNodeGroup) : Int := u.minSize

/-- upCloudNodeGroup.MaxSize -/
def MaxSize (u : UpCloudNodeGroup) : Int := u.maxSize

/-- upCloudNodeGroup.TargetSize: returns the cached size and a nil
error. -/
def TargetSize (u : UpCloudNodeGroup) : Int × Option UpErr :=
  (u.size, none)

/-- upCloudNodeGroup.Nodes: returns the cached instance list and a nil
error, without any remote call. -/
def Nodes (u : UpCloudNodeGroup) : Except UpErr (List Instance) :=
  .ok u.nodes

/-- upCloudNodeGroup.Exist: true iff the name is non-empty. -/
def Exist (u : UpCloudNodeGroup) : Bool :=
  u.name ≠ ""

/-- The body of the polling loop of upCloudNodeGroup.waitNodeGroupState:
`fuel` is the number of loop iterations the wall-clock deadline still
admits, `i` the 1-based attempt counter of the source.  Each iteration
issues one GetKubernetesNodeGroup call; a failed read aborts the whole
wait, a read observing the target state returns it, any other read
sleeps and retries until the deadline. -/
def waitLoop (u : UpCloudNodeGroup) (svc : Svc) (state : KState) :
    Nat → Nat → Calls → Except UpErr KubernetesNodeGroupDetails × Calls
  | 0, i, c => (.error (.stateCheckTimeout u.Id i), c)
  | fuel + 1, i, c =>
    match svc.getResp c.getCalls with
    | .error e =>
      (.error (.fetchNodeGroupFailed u.Id e),
       { c with getCalls := c.getCalls + 1 })
    | .ok g =>
      if g.state = state then (.ok g, { c with getCalls := c.getCalls + 1 })
      else waitLoop u svc state fuel (i + 1) { c with getCalls := c.getCalls + 1 }

/-- upCloudNodeGroup.waitNodeGroupState: poll GetKubernetesNodeGroup
until the group reports `state`, for at most `fuel` reads (the
wall-clock deadline `timeoutWaitNodeGroupState` expressed as a number
of loop iterations). -/
def waitNodeGroupState (u : UpCloudNodeGroup) (svc : Svc) (state : KState)
    (fuel : Nat) (c : Calls) :
    Except UpErr KubernetesNodeGroupDetails × Calls :=
  waitLoop u svc state fuel 1 c

/-- upCloudNodeGroup.scaleNodeGroup: issue one ModifyKubernetesNodeGroup
request with the target count; on remote failure wrap and return it with
no cache change; otherwise wait for the Running state and set the cached
size to the remote-reported count. -/
def scaleNodeGroup (u : UpCloudNodeGroup) (svc : Svc) (fuel : Nat)
    (size : Int) (c : Calls) :
    Option UpErr × UpCloudNodeGroup × Calls :=
  match svc.modifyResp c.modifyCalls with
  | .error e =>
    (some (.scaleFailed u.name e), u,
     { c with modifyCalls := c.modifyCalls + 1,
              modifyCounts := c.modifyCounts ++ [size] })
  | .ok _ =>
    match waitNodeGroupState u svc KubernetesNodeGroupStateRunning fuel
        { c with modifyCalls := c.modifyCalls + 1,
                 modifyCounts := c.modifyCounts ++ [size] } with
    | (.error e, c'') => (some e, u, c'')
    | (.ok nodeGroup, c'') => (none, { u with size := nodeGroup.count }, c'')

/-- upCloudNodeGroup.IncreaseSize: reject delta <= 0, reject a target
above MaxSize, otherwise scale. -/
def IncreaseSize (u : UpCloudNodeGroup) (svc : Svc) (fuel : Nat)
    (delta : Int) (c : Calls) :
    Option UpErr × UpCloudNodeGroup × Calls :=
  if delta ≤ 0 then (some (.invalidDelta delta), u, c)
  else
    let size := u.size + delta
    if size > u.MaxSize then
      (some (.increaseExceedsMax u.size size u.MaxSize), u, c)
    else scaleNodeGroup u svc fuel size c

/-- upCloudNodeGroup.DecreaseTargetSize: reject delta >= 0, reject a
target below MinSize, otherwise scale. -/
def DecreaseTargetSize (u : UpCloudNodeGroup) (svc : Svc) (fuel : Nat)
    (delta : Int) (c : Calls) :
    Option UpErr × UpCloudNodeGroup × Calls :=
  if delta ≥ 0 then (some (.invalidDelta delta), u, c)
  else
    let size := u.size + delta
    if size < u.MinSize then
      (some (.decreaseBelowMin u.size size u.MinSize), u, c)
    else scaleNodeGroup u svc fuel size c

/-- upCloudNodeGroup.deleteNode: one DeleteKubernetesNodeGroupNode call
carrying the node's name; the service error (nil on success) is returned
as is. -/
def deleteNode (svc : Svc) (nodeName : String) (c : Calls) :
    Option UpErr × Calls :=
  (svc.deleteResp c.deleteCalls,
   { c with deleteCalls := c.deleteCalls + 1,
            deleteNames := c.deleteNames ++ [nodeName] })

/-- One iteration of the loop in upCloudNodeGroup.DeleteNodes: delete
the named node (returning the delete error unchanged on failure), then
wait for the Running state (returning the wait error on failure), then
set the cached size to the remote-reported count. -/
def deleteNodesStep (u : UpCloudNodeGroup) (svc : Svc) (fuel : Nat)
    (nodeName : String) (c : Calls) :
    Option UpErr × UpCloudNodeGroup × Calls :=
  match deleteNode svc nodeName c with
  | (some e, c') => (some e, u, c')
  | (none, c') =>
    match waitNodeGroupState u svc KubernetesNodeGroupStateRunning fuel c' with
    | (.error e, c'') => (some e, u, c'')
    | (.ok nodeGroup, c'') => (none, { u with size := nodeGroup.count }, c'')

/-- upCloudNodeGroup.DeleteNodes: process the nodes one at a time in
input order; the first failing step aborts the whole call with that
failure, earlier iterations' effects stand. -/
def DeleteNodes (u : UpCloudNodeGroup) (svc : Svc) (fuel : Nat)
    (nodes : List String) (c : Calls) :
    Option UpErr × UpCloudNodeGroup × Calls :=
  match nodes with
  | [] => (none, u, c)
  | n :: rest =>
    match deleteNodesStep u svc fuel n c with
    | (some e, u', c') => (some e, u', c')
    | (none, u', c') => DeleteNodes u' svc fuel rest c'

end UpCloudNodeGroup

/-- nodeGroupMinSize: the fixed default minimum bound used by Refresh. -/
def nodeGroupMinSize : Int := 1

/-- nodeGroupMaxSize: the fixed default maximum bound used by Refresh. -/
def nodeGroupMaxSize : Int := 20

/-- nodeStateToInstanceStatus: map an upcloud.KubernetesNodeState to a
cloudprovider.InstanceStatus.  The switch covers running/terminating/
pending; any other state leaves the state at the Go zero value and fills
the error info with OtherErrorClass and the raw state string. -/
def nodeStateToInstanceStatus (nodeState : KState) : InstanceStatus :=
  if nodeState = KubernetesNodeStateRunning then
    { state := InstanceRunning, errorInfo := none }
  else if nodeState = KubernetesNodeStateTerminating then
    { state := InstanceDeleting, errorInfo := none }
  else if nodeState = KubernetesNodeStatePending then
    { state := InstanceCreating, errorInfo := none }
  else
    { state := 0,
      errorInfo := some { errorClass := OtherErrorClass, errorCode := nodeState } }

/-- serverStateToInstanceStatus: map an UpCloud server state string to a
cloudprovider.InstanceStatus.  "started" is Running, "maintenance" and
"stopped" are Deleting; any other state leaves the state at the Go zero
value and fills the error info with OtherErrorClass and the raw state
string. -/
def serverStateToInstanceStatus (serverStatus : String) : InstanceStatus :=
  if serverStatus = "started" then
    { state := InstanceRunning, errorInfo := none }
  else if serverStatus = "maintenance" ∨ serverStatus = "stopped" then
    { state := InstanceDeleting, errorInfo := none }
  else
    { state := 0,
      errorInfo := some { errorClass := OtherErrorClass, errorCode := serverStatus } }

/-- The manager-side remote endpoints used by Refresh: the one
GetKubernetesNodeGroups listing for the cluster, and the
GetKubernetesNodeGroupDetails response for each group name (each group's
details are requested at most once per Refresh, so the oracle is keyed
by the requested group name). -/
structure MgrSvc where
  listGroupsResp : Except UpErr (List KubernetesNodeGroup)
  detailsResp : String → Except UpErr KubernetesNodeGroupDetails

/-- The Manager struct: cluster identity plus the cached node group
controller collection (the sync.Mutex and the service handle are
modelled outside the state). -/
structure Manager where
  clusterID : String
  nodeGroups : List UpCloudNodeGroup
  deriving Repr, DecidableEq

/-- nodeGroupNodes: fetch the node group details and map each remote
node to a cloudprovider.Instance with Id "upcloud:////<uuid>" and the
status produced by nodeStateToInstanceStatus. -/
def nodeGroupNodes (svc : MgrSvc) (name : String) :
    Except UpErr (List Instance) :=
  match svc.detailsResp name with
  | .error e => .error e
  | .ok ng =>
    .ok (ng.nodes.map fun node =>
      { id := "upcloud:////" ++ node.uuid,
        status := some (nodeStateToInstanceStatus node.state) })

/-- The controller Refresh constructs for one listed group: name and
remote count from the listing, the fixed default bounds, the freshly
fetched instance list, all other fields at their Go zero values. -/
def freshNodeGroup (clusterID : String) (g : KubernetesNodeGroup)
    (nodes : List Instance) : UpCloudNodeGroup :=
  { clusterID := clusterID
    name := g.name
    size := g.count
    minSize := nodeGroupMinSize
    maxSize := nodeGroupMaxSize
    plan := { coreNumber := 0, memoryAmount := 0, storageSize := 0 }
    taints := []
    labels := []
    nodes := nodes }

/-- The loop of Manager.Refresh: build a fresh controller for every
listed group whose node fetch succeeds; a group whose node fetch fails
is logged and skipped. -/
def refreshGroups (svc : MgrSvc) (clusterID : String) :
    List KubernetesNodeGroup → List UpCloudNodeGroup
  | [] => []
  | g :: rest =>
    match nodeGroupNodes svc g.name with
    | .error _ => refreshGroups svc clusterID rest
    | .ok nodes => freshNodeGroup clusterID g nodes :: refreshGroups svc clusterID rest

/-- Manager.Refresh: list the cluster's node groups; on listing failure
return that error with the cached collection untouched; otherwise
replace the whole cached collection with freshly built controllers. -/
def Manager.Refresh (m : Manager) (svc : MgrSvc) :
    Option UpErr × Manager :=
  match svc.listGroupsResp with
  | .error e => (some e, m)
  | .ok upcloudNodeGroups =>
    (none, { m with nodeGroups := refreshGroups svc m.clusterID upcloudNodeGroups })

/-- The scan of upCloudCloudProvider.NodeGroupForNode over the manager's
controllers: for each group ask Nodes() (propagating an error), and
return the first group whose cached instance list contains the node's
provider ID; if no group claims the node, return nil group and nil
error. -/
def nodeGroupForNodeScan (providerID : String) :
    List UpCloudNodeGroup → Except UpErr (Option UpCloudNodeGroup)
  | [] => .ok none
  | group :: rest =>
    match group.Nodes with
    | .error e => .error e
    | .ok nodes =>
      if nodes.any fun n => n.id = providerID then .ok (some group)
      else nodeGroupForNodeScan providerID rest

/-- upCloudCloudProvider.NodeGroupForNode: scan the manager's cached
controllers for the node's provider ID. -/
def NodeGroupForNode (m : Manager) (providerID : String) :
    Except UpErr (Option UpCloudNodeGroup) :=
  nodeGroupForNodeScan providerID m.nodeGroups

/-! ### Concrete test fixtures, used to evaluate the definitions on
closed inputs (witnesses and counterexamples). -/

/-- A fresh call-counter record: no remote call issued yet. -/
def emptyCalls : Calls :=
  { modifyCalls := 0, getCalls := 0, deleteCalls := 0,
    modifyCounts := [], deleteNames := [] }

/-- The Go zero value of upcloud.Plan. -/
def zeroPlan : Plan := { coreNumber := 0, memoryAmount := 0, storageSize := 0 }

/-- A controller like the one in the source's tests: size 1, bounds
[1, 20]. -/
def group1 : UpCloudNodeGroup :=
  { clusterID := "11111111-1111-1111-1111-111111111111", name := "group1",
    size := 1, minSize := 1, maxSize := 20,
    plan := zeroPlan, taints := [], labels := [], nodes := [] }

/-- A controller holding three nodes: size 3, bounds [1, 20]. -/
def group3 : UpCloudNodeGroup := { group1 with size := 3 }

/-- Remote node group details reporting `count` nodes in the Running
state. -/
def runningDetails (count : Int) : KubernetesNodeGroupDetails :=
  { name := "group1", count := count,
    state := KubernetesNodeGroupStateRunning, nodes := [] }

/-- A remote service that accepts every request and always reports the
group Running with `count` nodes. -/
def svcRunning (count : Int) : Svc :=
  { modifyResp := fun _ =>
      .ok { name := "group1", count := count,
            state := KubernetesNodeGroupStateRunning }
    getResp := fun _ => .ok (runningDetails count)
    deleteResp := fun _ => none }

/-- A remote service for a group of three nodes being drained: the j-th
group read reports the group Running with 2 - j nodes left, and the
delete call with index `failAt` fails. -/
def svcDrain (failAt : Nat) : Svc :=
  { modifyResp := fun _ => .error (.remote "unused")
    getResp := fun j => .ok (runningDetails (2 - (j : Int)))
    deleteResp := fun i =>
      if i = failAt then some (.remote "delete failed") else none }

/-- A remote service whose group reads always succeed but never report
the Running state. -/
def svcStuck : Svc :=
  { modifyResp := fun _ =>
      .ok { name := "group1", count := 2, state := "scaling-up" }
    getResp := fun _ =>
      .ok { name := "group1", count := 2, state := "scaling-up", nodes := [] }
    deleteResp := fun _ => none }

/-- A remote service whose group reads fail. -/
def svcGetError : Svc :=
  { modifyResp := fun _ =>
      .ok { name := "group1", count := 2, state := "scaling-up" }
    getResp := fun _ => .error (.remote "api down")
    deleteResp := fun _ => none }

/-- A listed remote node group in the Running state. -/
def listedGroup (name : String) (count : Int) : KubernetesNodeGroup :=
  { name := name, count := count, state := KubernetesNodeGroupStateRunning }

/-- A manager-side service listing two groups, where fetching the
details of "group2" fails. -/
def mgrSvcPartial : MgrSvc :=
  { listGroupsResp := .ok [listedGroup "group1" 2, listedGroup "group2" 3]
    detailsResp := fun name =>
      if name = "group2" then .error (.remote "details failed")
      else .ok { name := name, count := 2,
                 state := KubernetesNodeGroupStateRunning,
                 nodes := [{ uuid := "uuid-1", name := "n1", state := "running" },
                           { uuid := "uuid-2", name := "n2", state := "pending" }] } }

/-- A manager-side service whose group listing fails. -/
def mgrSvcDown : MgrSvc :=
  { listGroupsResp := .error (.remote "listing failed")
    detailsResp := fun _ => .error (.remote "unused") }

/-- A cached instance with the given provider ID and no status. -/
def inst (id : String) : Instance := { id := id, status := none }

/-- A manager caching one controller that owns the instance with
provider ID "upcloud:////abc". -/
def managerWithNodes : Manager :=
  { clusterID := "cid",
    nodeGroups := [{ group1 with name := "g1", nodes := [inst "upcloud:////abc"] }] }

/-! ### Helper lemmas about the polling loop -/

/-- The polling loop only ever touches the get-call counter: the other
call counters and the request logs come out unchanged. -/
theorem waitLoop_snd_eq (u : UpCloudNodeGroup) (svc : Svc) (st : KState) :
    ∀ (fuel i : Nat) (c : Calls),
      (UpCloudNodeGroup.waitLoop u svc st fuel i c).2 =
        { c with getCalls := (UpCloudNodeGroup.waitLoop u svc st fuel i c).2.getCalls } := by
  intro fuel
  induction fuel with
  | zero => intro i c; rfl
  | succ fuel ih =>
    intro i c
    simp only [UpCloudNodeGroup.waitLoop]
    cases hr : svc.getResp c.getCalls with
    | error e => rfl
    | ok g =>
      by_cases hst : g.state = st
      · simp [hst]
      · simpa [hst] using ih (i + 1) { c with getCalls := c.getCalls + 1 }

/-- A successful poll returns a group details record that was reported
by one of the remote reads, and that reports the target state. -/
theorem waitLoop_ok (u : UpCloudNodeGroup) (svc : Svc) (st : KState) :
    ∀ (fuel i : Nat) (c c' : Calls) (g : KubernetesNodeGroupDetails),
      UpCloudNodeGroup.waitLoop u svc st fuel i c = (.ok g, c') →
      g.state = st ∧ ∃ j, svc.getResp j = .ok g := by
  intro fuel
  induction fuel with
  | zero => intro i c c' g h; simp [UpCloudNodeGroup.waitLoop] at h
  | succ fuel ih =>
    intro i c c' g h
    simp only [UpCloudNodeGroup.waitLoop] at h
    cases hr : svc.getResp c.getCalls with
    | error e => rw [hr] at h; simp at h
    | ok g0 =>
      rw [hr] at h
      by_cases hst : g0.state = st
      · simp only [hst, if_true] at h
        obtain ⟨hg, -⟩ := Prod.mk.injEq .. ▸ h
        cases hg
        exact ⟨hst, c.getCalls, hr⟩
      · simp only [hst, if_false] at h
        exact ih (i + 1) _ c' g h

/-- waitNodeGroupState version of `waitLoop_ok`. -/
theorem waitNodeGroupState_ok (u : UpCloudNodeGroup) (svc : Svc) (st : KState)
    (fuel : Nat) (c c' : Calls) (g : KubernetesNodeGroupDetails)
    (h : UpCloudNodeGroup.waitNodeGroupState u svc st fuel c = (.ok g, c')) :
    g.state = st ∧ ∃ j, svc.getResp j = .ok g :=
  waitLoop_ok u svc st fuel 1 c c' g h

/-- If every read the deadline admits succeeds but reports a state other
than the target, the poll consumes exactly `fuel` reads and times out,
with the attempt counter at `i + fuel`. -/
theorem waitLoop_timeout (u : UpCloudNodeGroup) (svc : Svc) (st : KState) :
    ∀ (fuel i : Nat) (c : Calls),
      (∀ l, l < fuel → ∃ g, svc.getResp (c.getCalls + l) = .ok g ∧ g.state ≠ st) →
      UpCloudNodeGroup.waitLoop u svc st fuel i c =
        (.error (.stateCheckTimeout u.Id (i + fuel)),
         { c with getCalls := c.getCalls + fuel }) := by
  intro fuel
  induction fuel with
  | zero => intro i c _; rfl
  | succ fuel ih =>
    intro i c h
    obtain ⟨g, hg, hst⟩ := h 0 (Nat.succ_pos _)
    rw [Nat.add_zero] at hg
    simp only [UpCloudNodeGroup.waitLoop, hg]
    rw [if_neg hst]
    rw [ih (i + 1) { c with getCalls := c.getCalls + 1 } (fun l hl => by
      have hx := h (l + 1) (by omega)
      have : c.getCalls + (l + 1) = c.getCalls + 1 + l := by omega
      rw [this] at hx
      exact hx)]
    have h1 : i + 1 + fuel = i + (fuel + 1) := by omega
    have h2 : c.getCalls + 1 + fuel = c.getCalls + (fuel + 1) := by omega
    rw [h1, h2]

/-- If the reads before the j-th one all succeed with the wrong state
and the j-th read fails, the poll fails at once with the wrapped read
error, after exactly j + 1 reads: a failed read is not retried. -/
theorem waitLoop_read_fail (u : UpCloudNodeGroup) (svc : Svc) (st : KState) :
    ∀ (j fuel i : Nat) (c : Calls) (e : UpErr),
      j < fuel →
      (∀ l, l < j → ∃ g, svc.getResp (c.getCalls + l) = .ok g ∧ g.state ≠ st) →
      svc.getResp (c.getCalls + j) = .error e →
      UpCloudNodeGroup.waitLoop u svc st fuel i c =
        (.error (.fetchNodeGroupFailed u.Id e),
         { c with getCalls := c.getCalls + j + 1 }) := by
  intro j
  induction j with
  | zero =>
    intro fuel i c e hj h0 he
    cases fuel with
    | zero => omega
    | succ fuel =>
      rw [Nat.add_zero] at he
      simp [UpCloudNodeGroup.waitLoop, he]
  | succ j ih =>
    intro fuel i c e hj h0 he
    cases fuel with
    | zero => omega
    | succ fuel =>
      obtain ⟨g, hg, hst⟩ := h0 0 (Nat.succ_pos _)
      rw [Nat.add_zero] at hg
      simp only [UpCloudNodeGroup.waitLoop, hg]
      rw [if_neg hst]
      rw [ih fuel (i + 1) { c with getCalls := c.getCalls + 1 } e (by omega)
        (fun l hl => by
          have hx := h0 (l + 1) (by omega)
          have : c.getCalls + (l + 1) = c.getCalls + 1 + l := by omega
          rw [this] at hx
          exact hx)
        (by
          have : c.getCalls + 1 + j = c.getCalls + (j + 1) := by omega
          rw [this]
          exact he)]
      have h2 : c.getCalls + 1 + j + 1 = c.getCalls + (j + 1) + 1 := by omega
      rw [h2]

/-- Outcome of scaleNodeGroup: on failure the controller comes back
unchanged; on success the cached size has been set to the count carried
by a remote read that observed the Running state. -/
theorem scaleNodeGroup_result (u : UpCloudNodeGroup) (svc : Svc) (fuel : Nat)
    (size : Int) (c : Calls) :
    ((UpCloudNodeGroup.scaleNodeGroup u svc fuel size c).1 ≠ none →
      (UpCloudNodeGroup.scaleNodeGroup u svc fuel size c).2.1 = u) ∧
    ((UpCloudNodeGroup.scaleNodeGroup u svc fuel size c).1 = none →
      ∃ g j, svc.getResp j = .ok g ∧
        g.state = KubernetesNodeGroupStateRunning ∧
        (UpCloudNodeGroup.scaleNodeGroup u svc fuel size c).2.1 =
          { u with size := g.count }) := by
  unfold UpCloudNodeGroup.scaleNodeGroup
  cases hm : svc.modifyResp c.modifyCalls with
  | error e => exact ⟨fun _ => rfl, fun h => by simp at h⟩
  | ok mg =>
    rcases hw : UpCloudNodeGroup.waitNodeGroupState u svc
        KubernetesNodeGroupStateRunning fuel
        { c with modifyCalls := c.modifyCalls + 1,
                 modifyCounts := c.modifyCounts ++ [size] } with ⟨r, c''⟩
    simp only [hw]
    cases r with
    | error e => exact ⟨fun _ => rfl, fun h => by simp at h⟩
    | ok g =>
      obtain ⟨hst, j, hj⟩ := waitNodeGroupState_ok u svc _ fuel _ c'' g hw
      exact ⟨fun h => absurd rfl h, fun _ => ⟨g, j, hj, hst, rfl⟩⟩

/-- Outcome of one DeleteNodes iteration, in the same shape as
`scaleNodeGroup_result`. -/
theorem deleteNodesStep_result (u : UpCloudNodeGroup) (svc : Svc) (fuel : Nat)
    (n : String) (c : Calls) :
    ((UpCloudNodeGroup.deleteNodesStep u svc fuel n c).1 ≠ none →
      (UpCloudNodeGroup.deleteNodesStep u svc fuel n c).2.1 = u) ∧
    ((UpCloudNodeGroup.deleteNodesStep u svc fuel n c).1 = none →
      ∃ g j, svc.getResp j = .ok g ∧
        g.state = KubernetesNodeGroupStateRunning ∧
        (UpCloudNodeGroup.deleteNodesStep u svc fuel n c).2.1 =
          { u with size := g.count }) := by
  unfold UpCloudNodeGroup.deleteNodesStep UpCloudNodeGroup.deleteNode
  cases hd : svc.deleteResp c.deleteCalls with
  | some e => exact ⟨fun _ => rfl, fun h => by simp at h⟩
  | none =>
    rcases hw : UpCloudNodeGroup.waitNodeGroupState u svc
        KubernetesNodeGroupStateRunning fuel
        { c with deleteCalls := c.deleteCalls + 1,
                 deleteNames := c.deleteNames ++ [n] } with ⟨r, c''⟩
    simp only [hw]
    cases r with
    | error e => exact ⟨fun _ => rfl, fun h => by simp at h⟩
    | ok g =>
      obtain ⟨hst, j, hj⟩ := waitNodeGroupState_ok u svc _ fuel _ c'' g hw
      exact ⟨fun h => absurd rfl h, fun _ => ⟨g, j, hj, hst, rfl⟩⟩

/-- The controller DeleteNodes returns is either the input controller or
the input controller with its size set to a count some remote read
reported together with the Running state. -/
theorem deleteNodes_group (svc : Svc) (fuel : Nat) :
    ∀ (names : List String) (u : UpCloudNodeGroup) (c : Calls),
      (u.DeleteNodes svc fuel names c).2.1 = u ∨
      ∃ g, (∃ j, svc.getResp j = .ok g) ∧
        g.state = KubernetesNodeGroupStateRunning ∧
        (u.DeleteNodes svc fuel names c).2.1 = { u with size := g.count } := by
  intro names
  induction names with
  | nil => intro u c; left; rfl
  | cons n rest ih =>
    intro u c
    rcases hs : UpCloudNodeGroup.deleteNodesStep u svc fuel n c with ⟨r, u', c'⟩
    cases r with
    | some e =>
      have hu : u' = u := by
        have h1 := (deleteNodesStep_result u svc fuel n c).1
        rw [hs] at h1
        exact h1 (by simp)
      left
      simp only [UpCloudNodeGroup.DeleteNodes, hs]
      exact hu
    | none =>
      have h2 := (deleteNodesStep_result u svc fuel n c).2
      rw [hs] at h2
      obtain ⟨g, j, hj, hst, hu'⟩ := h2 rfl
      have hu2 : u' = { u with size := g.count } := hu'
      rcases ih u' c' with h | ⟨g', hg', hst', h⟩
      · right
        refine ⟨g, ⟨j, hj⟩, hst, ?_⟩
        simp only [UpCloudNodeGroup.DeleteNodes, hs]
        rw [h]
        exact hu2
      · right
        refine ⟨g', hg', hst', ?_⟩
        simp only [UpCloudNodeGroup.DeleteNodes, hs]
        rw [h, hu2]

/-- A successful IncreaseSize passed both validations and delegated to
scaleNodeGroup, whose success wrote back a Running-observed remote
count. -/
theorem increaseSize_ok (u : UpCloudNodeGroup) (svc : Svc) (fuel : Nat)
    (delta : Int) (c : Calls)
    (h : (u.IncreaseSize svc fuel delta c).1 = none) :
    ∃ g j, svc.getResp j = .ok g ∧ g.state = KubernetesNodeGroupStateRunning ∧
      (u.IncreaseSize svc fuel delta c).2.1 = { u with size := g.count } := by
  unfold UpCloudNodeGroup.IncreaseSize at h ⊢
  by_cases h1 : delta ≤ 0
  · rw [if_pos h1] at h; simp at h
  · rw [if_neg h1] at h ⊢
    by_cases h2 : u.size + delta > u.MaxSize
    · rw [if_pos h2] at h; simp at h
    · rw [if_neg h2] at h ⊢
      exact (scaleNodeGroup_result u svc fuel (u.size + delta) c).2 h

/-- A successful DecreaseTargetSize passed both validations and
delegated to scaleNodeGroup, whose success wrote back a Running-observed
remote count. -/
theorem decreaseTargetSize_ok (u : UpCloudNodeGroup) (svc : Svc) (fuel : Nat)
    (delta : Int) (c : Calls)
    (h : (u.DecreaseTargetSize svc fuel delta c).1 = none) :
    ∃ g j, svc.getResp j = .ok g ∧ g.state = KubernetesNodeGroupStateRunning ∧
      (u.DecreaseTargetSize svc fuel delta c).2.1 = { u with size := g.count } := by
  unfold UpCloudNodeGroup.DecreaseTargetSize at h ⊢
  by_cases h1 : delta ≥ 0
  · rw [if_pos h1] at h; simp at h
  · rw [if_neg h1] at h ⊢
    by_cases h2 : u.size + delta < u.MinSize
    · rw [if_pos h2] at h; simp at h
    · rw [if_neg h2] at h ⊢
      exact (scaleNodeGroup_result u svc fuel (u.size + delta) c).2 h

/-- The wait touches no endpoint other than get: its returned call
record differs from the input at most in the get counter. -/
theorem waitNodeGroupState_preserves (u : UpCloudNodeGroup) (svc : Svc)
    (st : KState) (fuel : Nat) (c : Calls) :
    (UpCloudNodeGroup.waitNodeGroupState u svc st fuel c).2.deleteCalls = c.deleteCalls ∧
    (UpCloudNodeGroup.waitNodeGroupState u svc st fuel c).2.deleteNames = c.deleteNames ∧
    (UpCloudNodeGroup.waitNodeGroupState u svc st fuel c).2.modifyCalls = c.modifyCalls ∧
    (UpCloudNodeGroup.waitNodeGroupState u svc st fuel c).2.modifyCounts = c.modifyCounts := by
  have h := waitLoop_snd_eq u svc st fuel 1 c
  unfold UpCloudNodeGroup.waitNodeGroupState
  rw [h]
  exact ⟨rfl, rfl, rfl, rfl⟩

/-- Each DeleteNodes iteration issues exactly one remote single-node
delete, carrying that node's name. -/
theorem deleteNodesStep_calls (u : UpCloudNodeGroup) (svc : Svc) (fuel : Nat)
    (n : String) (c : Calls) :
    (UpCloudNodeGroup.deleteNodesStep u svc fuel n c).2.2.deleteCalls =
      c.deleteCalls + 1 ∧
    (UpCloudNodeGroup.deleteNodesStep u svc fuel n c).2.2.deleteNames =
      c.deleteNames ++ [n] := by
  unfold UpCloudNodeGroup.deleteNodesStep UpCloudNodeGroup.deleteNode
  cases hd : svc.deleteResp c.deleteCalls with
  | some e => exact ⟨rfl, rfl⟩
  | none =>
    rcases hw : UpCloudNodeGroup.waitNodeGroupState u svc
        KubernetesNodeGroupStateRunning fuel
        { c with deleteCalls := c.deleteCalls + 1,
                 deleteNames := c.deleteNames ++ [n] } with ⟨r, c''⟩
    have hp := waitNodeGroupState_preserves u svc
      KubernetesNodeGroupStateRunning fuel
      { c with deleteCalls := c.deleteCalls + 1,
               deleteNames := c.deleteNames ++ [n] }
    rw [hw] at hp
    simp only [hw]
    cases r with
    | error e => exact ⟨hp.1, hp.2.1⟩
    | ok g => exact ⟨hp.1, hp.2.1⟩

/-- The three possible outcomes of one DeleteNodes iteration, as
equations: a failed delete is returned as is with no controller change;
a failed wait is returned as is with no controller change; a successful
wait writes the remote-reported count into the cached size. -/
theorem deleteNodesStep_eq (u : UpCloudNodeGroup) (svc : Svc) (fuel : Nat)
    (n : String) (c : Calls) :
    (∀ e, svc.deleteResp c.deleteCalls = some e →
      UpCloudNodeGroup.deleteNodesStep u svc fuel n c =
        (some e, u, { c with deleteCalls := c.deleteCalls + 1,
                             deleteNames := c.deleteNames ++ [n] })) ∧
    (svc.deleteResp c.deleteCalls = none →
      ∀ e c₂, UpCloudNodeGroup.waitNodeGroupState u svc
          KubernetesNodeGroupStateRunning fuel
          { c with deleteCalls := c.deleteCalls + 1,
                   deleteNames := c.deleteNames ++ [n] } = (.error e, c₂) →
        UpCloudNodeGroup.deleteNodesStep u svc fuel n c = (some e, u, c₂)) ∧
    (svc.deleteResp c.deleteCalls = none →
      ∀ g c₂, UpCloudNodeGroup.waitNodeGroupState u svc
          KubernetesNodeGroupStateRunning fuel
          { c with deleteCalls := c.deleteCalls + 1,
                   deleteNames := c.deleteNames ++ [n] } = (.ok g, c₂) →
        g.state = KubernetesNodeGroupStateRunning ∧
        UpCloudNodeGroup.deleteNodesStep u svc fuel n c =
          (none, { u with size := g.count }, c₂)) := by
  refine ⟨fun e he => ?_, fun hd e c₂ hw => ?_, fun hd g c₂ hw => ?_⟩
  · unfold UpCloudNodeGroup.deleteNodesStep UpCloudNodeGroup.deleteNode
    rw [he]
  · unfold UpCloudNodeGroup.deleteNodesStep UpCloudNodeGroup.deleteNode
    rw [hd]
    simp only [hw]
  · refine ⟨(waitNodeGroupState_ok u svc _ fuel _ c₂ g hw).1, ?_⟩
    unfold UpCloudNodeGroup.deleteNodesStep UpCloudNodeGroup.deleteNode
    rw [hd]
    simp only [hw]

/-- DeleteNodes decomposes into a longest all-successful prefix of k
nodes processed in input order — their names are exactly the delete
requests logged, one per node — followed either by exhaustion of the
input (overall success) or by the failing step on the next node, whose
failure is returned together with the controller state reached after the
k successful steps. -/
theorem deleteNodes_decomposition (svc : Svc) (fuel : Nat) :
    ∀ (names : List String) (u : UpCloudNodeGroup) (c : Calls),
      ∃ k uk ck, k ≤ names.length ∧
        u.DeleteNodes svc fuel (names.take k) c = (none, uk, ck) ∧
        ck.deleteNames = c.deleteNames ++ names.take k ∧
        ck.deleteCalls = c.deleteCalls + k ∧
        ((names.drop k = [] ∧ u.DeleteNodes svc fuel names c = (none, uk, ck)) ∨
         (∃ n rest e, names.drop k = n :: rest ∧
           (UpCloudNodeGroup.deleteNodesStep uk svc fuel n ck).1 = some e ∧
           u.DeleteNodes svc fuel names c =
             (some e, uk, (UpCloudNodeGroup.deleteNodesStep uk svc fuel n ck).2.2))) := by
  intro names
  induction names with
  | nil =>
    intro u c
    exact ⟨0, u, c, Nat.le_refl 0, rfl, by simp, rfl, Or.inl ⟨rfl, rfl⟩⟩
  | cons n rest ih =>
    intro u c
    rcases hs : UpCloudNodeGroup.deleteNodesStep u svc fuel n c with ⟨r, u', c'⟩
    cases r with
    | some e =>
      have hu : u' = u := by
        have h1 := (deleteNodesStep_result u svc fuel n c).1
        rw [hs] at h1
        exact h1 (by simp)
      refine ⟨0, u, c, Nat.zero_le _, rfl, by simp, rfl,
        Or.inr ⟨n, rest, e, rfl, ?_, ?_⟩⟩
      · rw [hs]
      · simp only [UpCloudNodeGroup.DeleteNodes, hs]
        rw [hu]
    | none =>
      obtain ⟨k, uk, ck, hk, hpre, hnames, hcalls, hrest⟩ := ih u' c'
      have hc'names : c'.deleteNames = c.deleteNames ++ [n] := by
        have h2 := (deleteNodesStep_calls u svc fuel n c).2
        rw [hs] at h2
        exact h2
      have hc'calls : c'.deleteCalls = c.deleteCalls + 1 := by
        have h1 := (deleteNodesStep_calls u svc fuel n c).1
        rw [hs] at h1
        exact h1
      refine ⟨k + 1, uk, ck, by simpa using Nat.succ_le_succ hk, ?_, ?_, ?_, ?_⟩
      · simp only [List.take_succ_cons, UpCloudNodeGroup.DeleteNodes, hs]
        exact hpre
      · rw [hnames, hc'names]
        simp [List.take_succ_cons, List.append_assoc]
      · rw [hcalls, hc'calls]
        omega
      · rcases hrest with ⟨hdrop, hall⟩ | ⟨n', rest', e, hdrop, hfail, hall⟩
        · left
          refine ⟨by simpa using hdrop, ?_⟩
          simp only [UpCloudNodeGroup.DeleteNodes, hs]
          exact hall
        · right
          refine ⟨n', rest', e, by simpa using hdrop, hfail, ?_⟩
          simp only [UpCloudNodeGroup.DeleteNodes, hs]
          exact hall

/-- A failed IncreaseSize leaves the controller unchanged. -/
theorem increaseSize_err_group (u : UpCloudNodeGroup) (svc : Svc) (fuel : Nat)
    (delta : Int) (c : Calls)
    (h : (u.IncreaseSize svc fuel delta c).1 ≠ none) :
    (u.IncreaseSize svc fuel delta c).2.1 = u := by
  unfold UpCloudNodeGroup.IncreaseSize at h ⊢
  by_cases h1 : delta ≤ 0
  · rw [if_pos h1]
  · rw [if_neg h1] at h ⊢
    by_cases h2 : u.size + delta > u.MaxSize
    · rw [if_pos h2]
    · rw [if_neg h2] at h ⊢
      exact (scaleNodeGroup_result u svc fuel (u.size + delta) c).1 h

/-- A failed DecreaseTargetSize leaves the controller unchanged. -/
theorem decreaseTargetSize_err_group (u : UpCloudNodeGroup) (svc : Svc)
    (fuel : Nat) (delta : Int) (c : Calls)
    (h : (u.DecreaseTargetSize svc fuel delta c).1 ≠ none) :
    (u.DecreaseTargetSize svc fuel delta c).2.1 = u := by
  unfold UpCloudNodeGroup.DecreaseTargetSize at h ⊢
  by_cases h1 : delta ≥ 0
  · rw [if_pos h1]
  · rw [if_neg h1] at h ⊢
    by_cases h2 : u.size + delta < u.MinSize
    · rw [if_pos h2]
    · rw [if_neg h2] at h ⊢
      exact (scaleNodeGroup_result u svc fuel (u.size + delta) c).1 h

/-! ### Claim theorems -/

/-- C3: after a successful IncreaseSize or DecreaseTargetSize the cached
size returned by TargetSize equals the count reported by the remote
group read that observed the Running state; and that count may differ
from the requested count — concretely, group1 (size 1) increased by 2
requests count 3 upstream but ends with cached TargetSize 7 when the
remote reports 7. -/
theorem scale_writes_back_remote_count (u : UpCloudNodeGroup) (svc : Svc)
    (fuel : Nat) (delta : Int) (c : Calls) :
    ((u.IncreaseSize svc fuel delta c).1 = none →
      ∃ g j, svc.getResp j = .ok g ∧
        g.state = KubernetesNodeGroupStateRunning ∧
        ((u.IncreaseSize svc fuel delta c).2.1.TargetSize).1 = g.count) ∧
    ((u.DecreaseTargetSize svc fuel delta c).1 = none →
      ∃ g j, svc.getResp j = .ok g ∧
        g.state = KubernetesNodeGroupStateRunning ∧
        ((u.DecreaseTargetSize svc fuel delta c).2.1.TargetSize).1 = g.count) ∧
    ((group1.IncreaseSize (svcRunning 7) 1 2 emptyCalls).1 = none ∧
     (group1.IncreaseSize (svcRunning 7) 1 2 emptyCalls).2.2.modifyCounts = [3] ∧
     ((group1.IncreaseSize (svcRunning 7) 1 2 emptyCalls).2.1.TargetSize).1 = 7) := by
  refine ⟨fun h => ?_, fun h => ?_, by decide⟩
  · obtain ⟨g, j, hj, hst, hu⟩ := increaseSize_ok u svc fuel delta c h
    exact ⟨g, j, hj, hst, by rw [hu]; rfl⟩
  · obtain ⟨g, j, hj, hst, hu⟩ := decreaseTargetSize_ok u svc fuel delta c h
    exact ⟨g, j, hj, hst, by rw [hu]; rfl⟩

/-- Witness for C3: the successful scale operations on the concrete
controllers, against a remote reporting count 2 at Running. -/
theorem scale_writes_back_remote_count_witness :
    (∃ g j, (svcRunning 2).getResp j = .ok g ∧
      g.state = KubernetesNodeGroupStateRunning ∧
      ((group1.IncreaseSize (svcRunning 2) 1 1 emptyCalls).2.1.TargetSize).1 = g.count) ∧
    (∃ g j, (svcRunning 2).getResp j = .ok g ∧
      g.state = KubernetesNodeGroupStateRunning ∧
      ((group3.DecreaseTargetSize (svcRunning 2) 1 (-1) emptyCalls).2.1.TargetSize).1 = g.count) :=
  ⟨(scale_writes_back_remote_count group1 (svcRunning 2) 1 1 emptyCalls).1 (by decide),
   (scale_writes_back_remote_count group3 (svcRunning 2) 1 (-1) emptyCalls).2.1 (by decide)⟩

/-- Counterexample to C2 as stated: group1 satisfies 1 ≤ 1 ≤ 20, the
remote accepts the increase of 1 and reports the group Running with
count 1000, so IncreaseSize succeeds — and the cached size 1000 now
violates size ≤ maxSize = 20, because the written-back remote count is
not re-checked against the bounds. -/
theorem size_invariant_counterexample :
    group1.minSize ≤ group1.size ∧ group1.size ≤ group1.maxSize ∧
    (group1.IncreaseSize (svcRunning 1000) 1 1 emptyCalls).1 = none ∧
    (group1.IncreaseSize (svcRunning 1000) 1 1 emptyCalls).2.1.size = 1000 ∧
    ¬ ((group1.IncreaseSize (svcRunning 1000) 1 1 emptyCalls).2.1.size ≤
        (group1.IncreaseSize (svcRunning 1000) 1 1 emptyCalls).2.1.maxSize) := by
  decide

/-- C2 (amended): if the cached state initially satisfies
minSize ≤ size ≤ maxSize and every count reported by a remote group
read lies within [minSize, maxSize], then after every successful
mutating operation — IncreaseSize, DecreaseTargetSize, DeleteNodes —
the cached size still satisfies minSize ≤ size ≤ maxSize, also when the
size written back is the remote-reported count rather than the locally
requested count.  (Without the bound on remote-reported counts the
invariant fails: see the counterexample.) -/
theorem size_invariant_preserved (u : UpCloudNodeGroup) (svc : Svc)
    (fuel : Nat) (c : Calls)
    (hmin : u.minSize ≤ u.size) (hmax : u.size ≤ u.maxSize)
    (hget : ∀ j g, svc.getResp j = .ok g →
      u.minSize ≤ g.count ∧ g.count ≤ u.maxSize) :
    (∀ delta, (u.IncreaseSize svc fuel delta c).1 = none →
      (u.IncreaseSize svc fuel delta c).2.1.minSize ≤
        (u.IncreaseSize svc fuel delta c).2.1.size ∧
      (u.IncreaseSize svc fuel delta c).2.1.size ≤
        (u.IncreaseSize svc fuel delta c).2.1.maxSize) ∧
    (∀ delta, (u.DecreaseTargetSize svc fuel delta c).1 = none →
      (u.DecreaseTargetSize svc fuel delta c).2.1.minSize ≤
        (u.DecreaseTargetSize svc fuel delta c).2.1.size ∧
      (u.DecreaseTargetSize svc fuel delta c).2.1.size ≤
        (u.DecreaseTargetSize svc fuel delta c).2.1.maxSize) ∧
    (∀ names, (u.DeleteNodes svc fuel names c).1 = none →
      (u.DeleteNodes svc fuel names c).2.1.minSize ≤
        (u.DeleteNodes svc fuel names c).2.1.size ∧
      (u.DeleteNodes svc fuel names c).2.1.size ≤
        (u.DeleteNodes svc fuel names c).2.1.maxSize) := by
  refine ⟨fun delta h => ?_, fun delta h => ?_, fun names _ => ?_⟩
  · obtain ⟨g, j, hj, -, hu⟩ := increaseSize_ok u svc fuel delta c h
    rw [hu]
    exact hget j g hj
  · obtain ⟨g, j, hj, -, hu⟩ := decreaseTargetSize_ok u svc fuel delta c h
    rw [hu]
    exact hget j g hj
  · rcases deleteNodes_group svc fuel names u c with hg | ⟨g, ⟨j, hj⟩, -, hg⟩
    · rw [hg]; exact ⟨hmin, hmax⟩
    · rw [hg]; exact hget j g hj

/-- C1: DeleteNodes processes the nodes one at a time, strictly in input
order.  Each iteration issues exactly one remote single-node delete
carrying that node's name; when the delete succeeds it polls until the
group state is Running and sets the cached size to the remote-reported
count; a failing delete or a failing wait makes the call return that
failure at once with the controller state reached after the last
successful convergence — earlier deletions are not rolled back.  The run
decomposes into a longest all-successful prefix of k nodes (whose names
are exactly the logged delete requests, in order) followed by either
input exhaustion or the failing step.  Concretely, deleting 3 nodes with
the 2nd delete failing reports the failure, leaves the cached size at 2
— the count observed after the 1st convergence — and has issued delete
requests for exactly the first two names. -/
theorem deleteNodes_sequential (u : UpCloudNodeGroup) (svc : Svc) (fuel : Nat)
    (names : List String) (c : Calls) :
    (∀ (v : UpCloudNodeGroup) (n : String) (c₁ : Calls),
      ((UpCloudNodeGroup.deleteNodesStep v svc fuel n c₁).2.2.deleteCalls =
          c₁.deleteCalls + 1 ∧
        (UpCloudNodeGroup.deleteNodesStep v svc fuel n c₁).2.2.deleteNames =
          c₁.deleteNames ++ [n]) ∧
      (∀ e, svc.deleteResp c₁.deleteCalls = some e →
        UpCloudNodeGroup.deleteNodesStep v svc fuel n c₁ =
          (some e, v, { c₁ with deleteCalls := c₁.deleteCalls + 1,
                                deleteNames := c₁.deleteNames ++ [n] })) ∧
      (svc.deleteResp c₁.deleteCalls = none →
        ∀ e c₂, UpCloudNodeGroup.waitNodeGroupState v svc
            KubernetesNodeGroupStateRunning fuel
            { c₁ with deleteCalls := c₁.deleteCalls + 1,
                      deleteNames := c₁.deleteNames ++ [n] } = (.error e, c₂) →
          UpCloudNodeGroup.deleteNodesStep v svc fuel n c₁ = (some e, v, c₂)) ∧
      (svc.deleteResp c₁.deleteCalls = none →
        ∀ g c₂, UpCloudNodeGroup.waitNodeGroupState v svc
            KubernetesNodeGroupStateRunning fuel
            { c₁ with deleteCalls := c₁.deleteCalls + 1,
                      deleteNames := c₁.deleteNames ++ [n] } = (.ok g, c₂) →
          g.state = KubernetesNodeGroupStateRunning ∧
          UpCloudNodeGroup.deleteNodesStep v svc fuel n c₁ =
            (none, { v with size := g.count }, c₂))) ∧
    (∃ k uk ck, k ≤ names.length ∧
      u.DeleteNodes svc fuel (names.take k) c = (none, uk, ck) ∧
      ck.deleteNames = c.deleteNames ++ names.take k ∧
      ck.deleteCalls = c.deleteCalls + k ∧
      ((names.drop k = [] ∧ u.DeleteNodes svc fuel names c = (none, uk, ck)) ∨
       (∃ n rest e, names.drop k = n :: rest ∧
         (UpCloudNodeGroup.deleteNodesStep uk svc fuel n ck).1 = some e ∧
         u.DeleteNodes svc fuel names c =
           (some e, uk, (UpCloudNodeGroup.deleteNodesStep uk svc fuel n ck).2.2)))) ∧
    group3.DeleteNodes (svcDrain 1) 1 ["node-1", "node-2", "node-3"] emptyCalls =
      (some (.remote "delete failed"), { group3 with size := 2 },
       { emptyCalls with getCalls := 1, deleteCalls := 2,
                         deleteNames := ["node-1", "node-2"] }) :=
  ⟨fun v n c₁ => ⟨deleteNodesStep_calls v svc fuel n c₁,
     (deleteNodesStep_eq v svc fuel n c₁).1,
     (deleteNodesStep_eq v svc fuel n c₁).2.1,
     (deleteNodesStep_eq v svc fuel n c₁).2.2⟩,
   deleteNodes_decomposition svc fuel names u c,
   by decide⟩

/-- Witness for C1: the failing second delete of the drain scenario,
evaluated through the per-step clause of the theorem. -/
theorem deleteNodes_sequential_witness :
    UpCloudNodeGroup.deleteNodesStep group3 (svcDrain 1) 1 "node-2"
        { emptyCalls with getCalls := 1, deleteCalls := 1,
                          deleteNames := ["node-1"] } =
      (some (.remote "delete failed"), group3,
       { emptyCalls with getCalls := 1, deleteCalls := 2,
                         deleteNames := ["node-1", "node-2"] }) :=
  ((deleteNodes_sequential group3 (svcDrain 1) 1 [] emptyCalls).1 group3 "node-2"
      { emptyCalls with getCalls := 1, deleteCalls := 1,
                        deleteNames := ["node-1"] }).2.1
    (.remote "delete failed") rfl

/-- Witness for C2 (amended): a remote holding count 2, within group1's
bounds, preserves the invariant through a successful IncreaseSize. -/
theorem size_invariant_preserved_witness :
    (group1.IncreaseSize (svcRunning 2) 1 1 emptyCalls).2.1.minSize ≤
      (group1.IncreaseSize (svcRunning 2) 1 1 emptyCalls).2.1.size ∧
    (group1.IncreaseSize (svcRunning 2) 1 1 emptyCalls).2.1.size ≤
      (group1.IncreaseSize (svcRunning 2) 1 1 emptyCalls).2.1.maxSize :=
  (size_invariant_preserved group1 (svcRunning 2) 1 emptyCalls
    (by decide) (by decide)
    (fun j g hj => by
      injection hj with h
      subst h
      decide)).1 1 (by decide)

/-- C4: in the convergence poll, a failed group read (after j reads that
succeeded with the wrong state) aborts the whole wait at once with the
wrapped read error — the failed read is not retried, exactly j + 1 reads
were issued; if every read the deadline admits succeeds but reports a
state other than the target, the wait returns the convergence-timeout
error; and in that case the calling scale operation fails with that
timeout and returns the controller — its cached size included —
unchanged. -/
theorem wait_convergence_failure (u : UpCloudNodeGroup) (svc : Svc) (st : KState)
    (fuel : Nat) (c : Calls) :
    (∀ j e, j < fuel →
      (∀ l, l < j → ∃ g, svc.getResp (c.getCalls + l) = .ok g ∧ g.state ≠ st) →
      svc.getResp (c.getCalls + j) = .error e →
      UpCloudNodeGroup.waitNodeGroupState u svc st fuel c =
        (.error (.fetchNodeGroupFailed u.Id e),
         { c with getCalls := c.getCalls + j + 1 })) ∧
    ((∀ l, l < fuel → ∃ g, svc.getResp (c.getCalls + l) = .ok g ∧ g.state ≠ st) →
      UpCloudNodeGroup.waitNodeGroupState u svc st fuel c =
        (.error (.stateCheckTimeout u.Id (1 + fuel)),
         { c with getCalls := c.getCalls + fuel })) ∧
    (∀ size mg, svc.modifyResp c.modifyCalls = .ok mg →
      (∀ l, l < fuel → ∃ g, svc.getResp (c.getCalls + l) = .ok g ∧
         g.state ≠ KubernetesNodeGroupStateRunning) →
      UpCloudNodeGroup.scaleNodeGroup u svc fuel size c =
        (some (.stateCheckTimeout u.Id (1 + fuel)), u,
         { c with modifyCalls := c.modifyCalls + 1,
                  modifyCounts := c.modifyCounts ++ [size],
                  getCalls := c.getCalls + fuel })) := by
  refine ⟨fun j e hj hpre he => ?_, fun h => ?_, fun size mg hm h => ?_⟩
  · exact waitLoop_read_fail u svc st j fuel 1 c e hj hpre he
  · exact waitLoop_timeout u svc st fuel 1 c h
  · have hw := waitLoop_timeout u svc KubernetesNodeGroupStateRunning fuel 1
      { c with modifyCalls := c.modifyCalls + 1, modifyCounts := c.modifyCounts ++ [size] }
      (fun l hl => h l hl)
    simp only [UpCloudNodeGroup.scaleNodeGroup, hm,
      UpCloudNodeGroup.waitNodeGroupState, hw]

/-- Witness for C4: a failing read aborts the wait after one read; a
group stuck in "scaling-up" times out after both admitted reads; and
the stuck scale operation fails with the timeout, leaving group1
unchanged. -/
theorem wait_convergence_failure_witness :
    UpCloudNodeGroup.waitNodeGroupState group1 svcGetError
        KubernetesNodeGroupStateRunning 2 emptyCalls =
      (.error (.fetchNodeGroupFailed group1.Id (.remote "api down")),
       { emptyCalls with getCalls := 1 }) ∧
    UpCloudNodeGroup.waitNodeGroupState group1 svcStuck
        KubernetesNodeGroupStateRunning 2 emptyCalls =
      (.error (.stateCheckTimeout group1.Id 3),
       { emptyCalls with getCalls := 2 }) ∧
    UpCloudNodeGroup.scaleNodeGroup group1 svcStuck 2 2 emptyCalls =
      (some (.stateCheckTimeout group1.Id 3), group1,
       { emptyCalls with modifyCalls := 1, modifyCounts := [2], getCalls := 2 }) :=
  ⟨(wait_convergence_failure group1 svcGetError KubernetesNodeGroupStateRunning
      2 emptyCalls).1 0 (.remote "api down") (by decide)
      (fun l hl => absurd hl (Nat.not_lt_zero l)) rfl,
   (wait_convergence_failure group1 svcStuck KubernetesNodeGroupStateRunning
      2 emptyCalls).2.1
      (fun l _ => ⟨_, rfl, by decide⟩),
   (wait_convergence_failure group1 svcStuck KubernetesNodeGroupStateRunning
      2 emptyCalls).2.2 2 _ rfl
      (fun l _ => ⟨_, rfl, by decide⟩)⟩

/-- C10: DeleteNodes on an empty node sequence returns a nil error,
issues no remote call (the call counters and request logs are returned
untouched), and leaves the controller — cached size and cached instance
list included — unchanged. -/
theorem deleteNodes_empty_noop (u : UpCloudNodeGroup) (svc : Svc)
    (fuel : Nat) (c : Calls) :
    u.DeleteNodes svc fuel [] c = (none, u, c) := rfl

/-- C5: IncreaseSize rejects delta <= 0 with the invalid-delta error and
rejects a target above MaxSize with the bounds error; DecreaseTargetSize
symmetrically rejects delta >= 0 and a target below MinSize.  In each
case the returned controller and call record are exactly the inputs: the
cached size is unchanged and no remote call was issued. -/
theorem scale_input_validation (u : UpCloudNodeGroup) (svc : Svc)
    (fuel : Nat) (delta : Int) (c : Calls) :
    (delta ≤ 0 →
      u.IncreaseSize svc fuel delta c = (some (.invalidDelta delta), u, c)) ∧
    (0 < delta → u.maxSize < u.size + delta →
      u.IncreaseSize svc fuel delta c =
        (some (.increaseExceedsMax u.size (u.size + delta) u.maxSize), u, c)) ∧
    (0 ≤ delta →
      u.DecreaseTargetSize svc fuel delta c = (some (.invalidDelta delta), u, c)) ∧
    (delta < 0 → u.size + delta < u.minSize →
      u.DecreaseTargetSize svc fuel delta c =
        (some (.decreaseBelowMin u.size (u.size + delta) u.minSize), u, c)) := by
  refine ⟨fun h => ?_, fun h1 h2 => ?_, fun h => ?_, fun h1 h2 => ?_⟩
  · simp [UpCloudNodeGroup.IncreaseSize, h]
  · rw [UpCloudNodeGroup.IncreaseSize, if_neg (by omega),
      if_pos (by simpa [UpCloudNodeGroup.MaxSize] using h2)]
    rfl
  · simp [UpCloudNodeGroup.DecreaseTargetSize, h]
  · rw [UpCloudNodeGroup.DecreaseTargetSize, if_neg (by omega),
      if_pos (by simpa [UpCloudNodeGroup.MinSize] using h2)]
    rfl

/-- Witness for C5: the four rejections evaluated on the concrete
group1 controller (size 1, bounds [1, 20]). -/
theorem scale_input_validation_witness :
    group1.IncreaseSize (svcRunning 2) 1 0 emptyCalls =
      (some (.invalidDelta 0), group1, emptyCalls) ∧
    group1.IncreaseSize (svcRunning 2) 1 25 emptyCalls =
      (some (.increaseExceedsMax 1 26 20), group1, emptyCalls) ∧
    group1.DecreaseTargetSize (svcRunning 2) 1 0 emptyCalls =
      (some (.invalidDelta 0), group1, emptyCalls) ∧
    group1.DecreaseTargetSize (svcRunning 2) 1 (-5) emptyCalls =
      (some (.decreaseBelowMin 1 (-4) 1), group1, emptyCalls) :=
  ⟨(scale_input_validation group1 (svcRunning 2) 1 0 emptyCalls).1 (by decide),
   (scale_input_validation group1 (svcRunning 2) 1 25 emptyCalls).2.1
     (by decide) (by decide),
   (scale_input_validation group1 (svcRunning 2) 1 0 emptyCalls).2.2.1 (by decide),
   (scale_input_validation group1 (svcRunning 2) 1 (-5) emptyCalls).2.2.2
     (by decide) (by decide)⟩

/-- C9: if the initial GetKubernetesNodeGroups listing fails, Refresh
returns that error and the manager — its cached controller collection
included — is returned unchanged. -/
theorem refresh_listing_failure (m : Manager) (svc : MgrSvc) (e : UpErr)
    (h : svc.listGroupsResp = .error e) :
    Manager.Refresh m svc = (some e, m) := by
  simp [Manager.Refresh, h]

/-- Witness for C9: the listing-failure service leaves the concrete
manager untouched. -/
theorem refresh_listing_failure_witness :
    Manager.Refresh managerWithNodes mgrSvcDown =
      (some (.remote "listing failed"), managerWithNodes) :=
  refresh_listing_failure managerWithNodes mgrSvcDown (.remote "listing failed") rfl

/-- C8: both state mappers are total functions (they return an
InstanceStatus for every input string and never fail):
nodeStateToInstanceStatus maps running to Running, terminating to
Deleting, pending to Creating, and every other value to a status whose
error info carries OtherErrorClass and the raw remote state string;
serverStateToInstanceStatus does the same for started / maintenance /
stopped. -/
theorem state_mapper_total (s : String) :
    (s = KubernetesNodeStateRunning →
      nodeStateToInstanceStatus s = { state := InstanceRunning, errorInfo := none }) ∧
    (s = KubernetesNodeStateTerminating →
      nodeStateToInstanceStatus s = { state := InstanceDeleting, errorInfo := none }) ∧
    (s = KubernetesNodeStatePending →
      nodeStateToInstanceStatus s = { state := InstanceCreating, errorInfo := none }) ∧
    (s ≠ KubernetesNodeStateRunning → s ≠ KubernetesNodeStateTerminating →
      s ≠ KubernetesNodeStatePending →
      nodeStateToInstanceStatus s =
        { state := 0,
          errorInfo := some { errorClass := OtherErrorClass, errorCode := s } }) ∧
    (s = "started" →
      serverStateToInstanceStatus s = { state := InstanceRunning, errorInfo := none }) ∧
    (s = "maintenance" ∨ s = "stopped" →
      serverStateToInstanceStatus s = { state := InstanceDeleting, errorInfo := none }) ∧
    (s ≠ "started" → s ≠ "maintenance" → s ≠ "stopped" →
      serverStateToInstanceStatus s =
        { state := 0,
          errorInfo := some { errorClass := OtherErrorClass, errorCode := s } }) := by
  refine ⟨fun h => ?_, fun h => ?_, fun h => ?_, fun h1 h2 h3 => ?_,
    fun h => ?_, fun h => ?_, fun h1 h2 h3 => ?_⟩
  case refine_6 => rcases h with h | h <;> subst h <;> decide
  all_goals
    simp_all [nodeStateToInstanceStatus, serverStateToInstanceStatus,
      KubernetesNodeStateRunning, KubernetesNodeStateTerminating,
      KubernetesNodeStatePending]

/-- Witness for C8: the mappers evaluated on each known state and on the
unknown states "failed" and "error". -/
theorem state_mapper_total_witness :
    nodeStateToInstanceStatus "running" =
      { state := InstanceRunning, errorInfo := none } ∧
    nodeStateToInstanceStatus "terminating" =
      { state := InstanceDeleting, errorInfo := none } ∧
    nodeStateToInstanceStatus "pending" =
      { state := InstanceCreating, errorInfo := none } ∧
    nodeStateToInstanceStatus "failed" =
      { state := 0,
        errorInfo := some { errorClass := OtherErrorClass, errorCode := "failed" } } ∧
    serverStateToInstanceStatus "started" =
      { state := InstanceRunning, errorInfo := none } ∧
    serverStateToInstanceStatus "maintenance" =
      { state := InstanceDeleting, errorInfo := none } ∧
    serverStateToInstanceStatus "stopped" =
      { state := InstanceDeleting, errorInfo := none } ∧
    serverStateToInstanceStatus "error" =
      { state := 0,
        errorInfo := some { errorClass := OtherErrorClass, errorCode := "error" } } :=
  ⟨(state_mapper_total "running").1 rfl,
   (state_mapper_total "terminating").2.1 rfl,
   (state_mapper_total "pending").2.2.1 rfl,
   (state_mapper_total "failed").2.2.2.1 (by decide) (by decide) (by decide),
   (state_mapper_total "started").2.2.2.2.1 rfl,
   (state_mapper_total "maintenance").2.2.2.2.2.1 (Or.inl rfl),
   (state_mapper_total "stopped").2.2.2.2.2.1 (Or.inr rfl),
   (state_mapper_total "error").2.2.2.2.2.2 (by decide) (by decide) (by decide)⟩

/-- If no cached instance of any scanned controller carries the provider
ID, the scan returns nil group and nil error. -/
theorem nodeGroupForNodeScan_none (pid : String) :
    ∀ gs : List UpCloudNodeGroup,
      (∀ g ∈ gs, ∀ n ∈ g.nodes, n.id ≠ pid) →
      nodeGroupForNodeScan pid gs = .ok none := by
  intro gs
  induction gs with
  | nil => intro _; rfl
  | cons g gs ih =>
    intro h
    have hg : ¬ (g.nodes.any fun n => n.id = pid) = true := by
      simp only [List.any_eq_true, decide_eq_true_eq, not_exists]
      rintro n ⟨hn, hid⟩
      exact h g (List.mem_cons_self g gs) n hn hid
    simp only [nodeGroupForNodeScan, UpCloudNodeGroup.Nodes, hg, if_false]
    exact ih fun g' hg' => h g' (List.mem_cons_of_mem _ hg')

/-- If some scanned controller's cached instance list carries the
provider ID, the scan returns an owning controller. -/
theorem nodeGroupForNodeScan_found (pid : String) :
    ∀ gs : List UpCloudNodeGroup,
      (∃ g ∈ gs, ∃ n ∈ g.nodes, n.id = pid) →
      ∃ g, g ∈ gs ∧ (∃ n ∈ g.nodes, n.id = pid) ∧
        nodeGroupForNodeScan pid gs = .ok (some g) := by
  intro gs
  induction gs with
  | nil => rintro ⟨g, hg, -⟩; cases hg
  | cons g gs ih =>
    intro h
    by_cases hc : (g.nodes.any fun n => n.id = pid) = true
    · refine ⟨g, List.mem_cons_self g gs, ?_, ?_⟩
      · simpa using hc
      · simp [nodeGroupForNodeScan, UpCloudNodeGroup.Nodes, hc]
    · have htail : ∃ g' ∈ gs, ∃ n ∈ g'.nodes, n.id = pid := by
        rcases h with ⟨g', hg', hn⟩
        rcases List.mem_cons.mp hg' with rfl | hg'
        · exact absurd (by simpa using hn) (by simpa using hc)
        · exact ⟨g', hg', hn⟩
      obtain ⟨g', h1, h2, h3⟩ := ih htail
      exact ⟨g', List.mem_cons_of_mem _ h1, h2, by
        simp [nodeGroupForNodeScan, UpCloudNodeGroup.Nodes, hc, h3]⟩

/-- C7: NodeGroupForNode scans the cached instance lists for the node's
provider ID; a provider ID that no cached instance of any controller
carries yields the not-found result — nil group together with nil error,
not an error — and a provider ID some controller's cached list carries
yields that owning controller. -/
theorem nodeGroupForNode_lookup (m : Manager) (providerID : String) :
    ((∀ g ∈ m.nodeGroups, ∀ n ∈ g.nodes, n.id ≠ providerID) →
      NodeGroupForNode m providerID = .ok none) ∧
    ((∃ g ∈ m.nodeGroups, ∃ n ∈ g.nodes, n.id = providerID) →
      ∃ g, g ∈ m.nodeGroups ∧ (∃ n ∈ g.nodes, n.id = providerID) ∧
        NodeGroupForNode m providerID = .ok (some g)) :=
  ⟨fun h => nodeGroupForNodeScan_none providerID m.nodeGroups h,
   fun h => nodeGroupForNodeScan_found providerID m.nodeGroups h⟩

/-- Witness for C7: on the concrete manager, an unknown provider ID
yields ok-none and the cached provider ID yields an owning group. -/
theorem nodeGroupForNode_lookup_witness :
    NodeGroupForNode managerWithNodes "upcloud:////zzz" = .ok none ∧
    ∃ g, g ∈ managerWithNodes.nodeGroups ∧
      (∃ n ∈ g.nodes, n.id = "upcloud:////abc") ∧
      NodeGroupForNode managerWithNodes "upcloud:////abc" = .ok (some g) :=
  ⟨(nodeGroupForNode_lookup managerWithNodes "upcloud:////zzz").1 (by decide),
   (nodeGroupForNode_lookup managerWithNodes "upcloud:////abc").2 (by decide)⟩

/-- The Refresh loop keeps exactly the listed groups whose node fetch
succeeds, each rebuilt from scratch. -/
theorem refreshGroups_eq_filterMap (svc : MgrSvc) (cid : String) :
    ∀ gs : List KubernetesNodeGroup,
      refreshGroups svc cid gs = gs.filterMap fun g =>
        match nodeGroupNodes svc g.name with
        | .error _ => none
        | .ok nodes => some (freshNodeGroup cid g nodes) := by
  intro gs
  induction gs with
  | nil => rfl
  | cons g gs ih =>
    cases h : nodeGroupNodes svc g.name with
    | error e => simp [refreshGroups, List.filterMap_cons, h, ih]
    | ok nodes => simp [refreshGroups, List.filterMap_cons, h, ih]

/-- C6: when the initial listing succeeds, Refresh succeeds and replaces
the whole cached collection: the new collection is exactly the listed
groups whose node fetch succeeded, each a freshly constructed controller;
it does not depend on the previously cached controllers; and every
surviving controller carries the fixed default bounds and a freshly
fetched instance list. -/
theorem refresh_rebuilds_collection (m : Manager) (svc : MgrSvc)
    (gs : List KubernetesNodeGroup) (h : svc.listGroupsResp = .ok gs) :
    Manager.Refresh m svc =
      (none, { m with nodeGroups := gs.filterMap fun g =>
        match nodeGroupNodes svc g.name with
        | .error _ => none
        | .ok nodes => some (freshNodeGroup m.clusterID g nodes) }) ∧
    (∀ m' : Manager, m'.clusterID = m.clusterID →
      (Manager.Refresh m' svc).2.nodeGroups = (Manager.Refresh m svc).2.nodeGroups) ∧
    (∀ g' ∈ (Manager.Refresh m svc).2.nodeGroups,
      g'.minSize = nodeGroupMinSize ∧ g'.maxSize = nodeGroupMaxSize ∧
      ∃ g, g ∈ gs ∧ nodeGroupNodes svc g.name = .ok g'.nodes ∧
        g' = freshNodeGroup m.clusterID g g'.nodes) := by
  have hmain : Manager.Refresh m svc =
      (none, { m with nodeGroups := gs.filterMap fun g =>
        match nodeGroupNodes svc g.name with
        | .error _ => none
        | .ok nodes => some (freshNodeGroup m.clusterID g nodes) }) := by
    simp [Manager.Refresh, h, refreshGroups_eq_filterMap]
  refine ⟨hmain, fun m' hm' => ?_, fun g' hg' => ?_⟩
  · simp [Manager.Refresh, h, refreshGroups_eq_filterMap, hm']
  · rw [hmain] at hg'
    simp only [List.mem_filterMap] at hg'
    obtain ⟨g, hg, hfg⟩ := hg'
    cases hn : nodeGroupNodes svc g.name with
    | error e => rw [hn] at hfg; cases hfg
    | ok nodes =>
      rw [hn] at hfg
      cases hfg
      exact ⟨rfl, rfl, g, hg, hn, rfl⟩

/-- Witness for C6: refreshing against the partial service drops the
previous controller, skips failing "group2", and caches one freshly
built controller for "group1". -/
theorem refresh_rebuilds_collection_witness :
    Manager.Refresh managerWithNodes mgrSvcPartial =
      (none,
       { managerWithNodes with nodeGroups :=
          [{ clusterID := "cid", name := "group1", size := 2,
             minSize := 1, maxSize := 20, plan := zeroPlan,
             taints := [], labels := [],
             nodes :=
              [{ id := "upcloud:////uuid-1",
                 status := some { state := InstanceRunning, errorInfo := none } },
               { id := "upcloud:////uuid-2",
                 status := some { state := InstanceCreating, errorInfo := none } }] }] }) :=
  (refresh_rebuilds_collection managerWithNodes mgrSvcPartial
    [listedGroup "group1" 2, listedGroup "group2" 3] rfl).1.trans (by decide)

end UpCloud
